import Mathlib

/-!
# Shallow embedding of `code/sample_usage.py` (wrrf_energy_rates)

This file embeds the two core functions of the repository,
`get_charge_array` (the rate resolver) and `calculate_cost` (the cost
accumulator), as executable Lean definitions, and proves/refutes the frozen
claims about them.

Modelling conventions:
* Python/numpy floats are modelled as `ℚ` (the algorithms only add, subtract,
  multiply, divide and compare, so the rational model tracks the float code
  exactly on rational inputs, without rounding).
* A pandas `DataFrame` of tariff rows is a `List TariffRule`; the pandas
  `RangeIndex` labels `0, 1, ...` of `rate_data` are recovered with
  `List.enum`, and `.loc` filtering keeps those labels (`filteredCharges`).
* The consumption `DataFrame` passed to `get_charge_array` only matters
  through its `DateTime` column; a missing column (pandas `KeyError`) is
  modelled by `Option (List Timestamp)` being `none`.  `shape[0]` (line 66 of
  the source) is only ever consumed after the `DateTime` access, so it needs
  no separate field.
* numpy structured arrays keyed by `str(limit)` are modelled as association
  lists keyed by the numeric limit itself: `calculate_cost` immediately
  converts the key back with `float(name)`, so the string round-trip is the
  identity in the model.  The literal key `"0.0"` of the empty-filter fallback
  is the rational `0`.
* The driver always passes whole-day windows (96 samples per day at 15-minute
  cadence), so `len(hours) = 96 * ndays` and the `np.tile` fraction at row `i`
  is `(i % 4) / 4`.  The numpy broadcast errors that the real code raises for
  ragged windows or misaligned lengths are not modelled; elementwise numpy
  products are `List.zipWith` on equal-length lists.
* numpy `IndexError`s from out-of-range `idx_np` (possible only when the row
  labels of one tier group are not contiguous) are not modelled: list reads
  use `getD` and out-of-range `List.set` is a no-op.
-/

/-- Python exceptions that the two core functions raise. -/
inductive PyError where
  | valueError : String → PyError
  | keyError : String → PyError
deriving DecidableEq, Repr

/-- The fields of one row of the consumption `DateTime` column that
`get_charge_array` reads: `.dt.month`, `.dt.weekday`, `.dt.hour`. -/
structure Timestamp where
  month : ℕ
  weekday : ℕ
  hour : ℕ
deriving DecidableEq, Repr

/-- One row of the tariff sheet (`rate_data`), with the columns that the core
reads.  `limit` is `basic_charge_limit (imperial)` and `charge` is
`charge (imperial)`. -/
structure TariffRule where
  utility : String
  type : String
  period : String
  limit : ℚ
  month_start : ℕ
  month_end : ℕ
  hour_start : ℚ
  hour_end : ℚ
  weekday_start : ℕ
  weekday_end : ℕ
  charge : ℚ
deriving DecidableEq, Repr

/-- The structured array returned by `get_charge_array`: a flat rate list for
`customer`, per-tier column matrices for `demand` (each tier field holds one
column per tariff row of that tier), and per-tier rate series for `energy`. -/
inductive ChargeArray where
  | customer : List ℚ → ChargeArray
  | demand : List (ℚ × List (List ℚ)) → ChargeArray
  | energy : List (ℚ × List ℚ) → ChargeArray
deriving DecidableEq, Repr

/-- The first argument of `calculate_cost`: a structured array whose fields
are either all two-dimensional (demand-shaped, one matrix of time-of-use
columns per tier) or all one-dimensional (energy-shaped, one rate series per
tier).  The field names (`str(limit)`) are the numeric limits. -/
inductive StructuredCharges where
  | mat : List (ℚ × List (List ℚ)) → StructuredCharges
  | vec : List (ℚ × List ℚ) → StructuredCharges
deriving DecidableEq, Repr

/-- Source line 78: the fractional hour of row `i`,
`hours[i] = DateTime.dt.hour[i] + (i % 4) / 4` (the `np.tile(np.arange(4)/4, …)`
increment at 15-minute cadence). -/
def hourFrac (t : Timestamp) (i : ℕ) : ℚ :=
  (t.hour : ℚ) + ((i % 4 : ℕ) : ℚ) / 4

/-- Source lines 104–111: the per-row applicability test of one tariff rule —
five range tests ANDed together (month and weekday ranges inclusive, hour
range half-open). -/
def applyCharge (c : TariffRule) (t : Timestamp) (i : ℕ) : Bool :=
  decide (c.month_start ≤ t.month) && decide (t.month ≤ c.month_end) &&
  decide (c.weekday_start ≤ t.weekday) && decide (t.weekday ≤ c.weekday_end) &&
  decide (c.hour_start ≤ hourFrac t i) && decide (hourFrac t i < c.hour_end)

/-- The full boolean mask `apply_charge` of one rule over the window. -/
def applyMask (c : TariffRule) (ts : List Timestamp) : List Bool :=
  ts.enum.map (fun p => applyCharge c p.2 p.1)

/-- Source lines 68–69: filter the tariff rows by `type == charge_type`, then
by `utility == utility`, keeping the original `rate_data` row labels. -/
def filteredCharges (rate_data : List TariffRule) (charge_type utility : String) :
    List (ℕ × TariffRule) :=
  ((rate_data.enum.filter (fun p => p.2.type = charge_type)).filter
    (fun p => p.2.utility = utility))

/-- `np.unique`: the distinct values, sorted ascending. -/
def np_unique (l : List ℚ) : List ℚ :=
  List.insertionSort (· ≤ ·) l.dedup

/-- `min(limit_charges.index.values)` (source line 102). -/
def minIndex (l : List (ℕ × TariffRule)) : ℕ :=
  match l.map Prod.fst with
  | [] => 0
  | x :: xs => xs.foldl Nat.min x

/-- Source lines 96–119, demand branch of the per-tier loop: start from a
zero matrix with one column per rule of the tier, and for each rule write
`mask × rate` into column `idx_np = idx - min(index)` — unless a rule with the
same `period` label was seen before, in which case OR the new mask with the
first-seen mask and overwrite the FIRST rule's column (the current rule's own
column is left untouched, i.e. all-zero).  `periods` is the period column of
ALL filtered charges, read positionally at `idx_np`. -/
def buildDemandData (ts : List Timestamp) (periods : List String) (minIdx : ℕ)
    (limit_charges : List (ℕ × TariffRule)) : List (List ℚ) :=
  let n96 := 96 * (ts.length / 96)
  let init : List (List ℚ) := List.replicate limit_charges.length (List.replicate n96 0)
  (limit_charges.foldl
    (fun (st : List (List ℚ) × List (String × ℕ × List Bool)) p =>
      let idx_np := p.1 - minIdx
      let period := periods.getD idx_np ""
      let mask := applyMask p.2 ts
      match st.2.find? (fun q => q.1 = period) with
      | none =>
          (st.1.set idx_np (mask.map (fun b => if b then p.2.charge else 0)),
           st.2 ++ [(period, idx_np, mask)])
      | some q =>
          let merged := List.zipWith (fun a b => a || b) mask q.2.2
          (st.1.set q.2.1 (merged.map (fun b => if b then p.2.charge else 0)), st.2))
    (init, [])).1

/-- Source lines 98, 121, energy branch of the per-tier loop: accumulate
`mask × rate` of every rule of the tier elementwise into one series. -/
def buildEnergyData (ts : List Timestamp) (limit_charges : List (ℕ × TariffRule)) :
    List ℚ :=
  limit_charges.foldl
    (fun acc p =>
      List.zipWith (· + ·) acc
        ((applyMask p.2 ts).map (fun b => if b then p.2.charge else 0)))
    (List.replicate (96 * (ts.length / 96)) 0)

/-- Source lines 66–134: `get_charge_array(consumption_data, rate_data,
charge_type, utility)`.  `consumption` is the `DateTime` column of the
consumption data (`none` when the column is missing).  Branch order follows
the source: the customer branch returns before the `DateTime` access; the
invalid-`charge_type` `ValueError` (line 90) comes after it. -/
def get_charge_array (consumption : Option (List Timestamp))
    (rate_data : List TariffRule) (charge_type : String)
    (utility : String) : Except PyError ChargeArray :=
  let charges := filteredCharges rate_data charge_type utility
  if charge_type = "customer" then
    .ok (.customer (charges.map (fun p => p.2.charge)))
  else
    match consumption with
    | none => .error (.keyError "DateTime")
    | some ts =>
      let periods := charges.map (fun p => p.2.period)
      let limits := charges.map (fun p => p.2.limit)
      let n96 := 96 * (ts.length / 96)
      if charge_type = "demand" then
        if charges.length = 0 then
          .ok (.demand [(0, [List.replicate n96 0])])
        else
          .ok (.demand ((np_unique limits).map (fun L =>
            let limit_charges := charges.filter (fun p => p.2.limit = L)
            (L, buildDemandData ts periods (minIndex limit_charges) limit_charges))))
      else if charge_type = "energy" then
        if charges.length = 0 then
          .ok (.energy [(0, List.replicate n96 0)])
        else
          .ok (.energy ((np_unique limits).map (fun L =>
            let limit_charges := charges.filter (fun p => p.2.limit = L)
            (L, buildEnergyData ts limit_charges))))
      else
        .error (.valueError ("Invalid charge_type: " ++ charge_type))

/-- `np.max` of a list (the source never takes it on an empty array; `0` is a
junk value for `[]`). -/
def listMax : List ℚ → ℚ
  | [] => 0
  | x :: xs => xs.foldl max x

/-- `np.argmax`: index of the first maximal element (`0` for `[]`, where numpy
would raise). -/
def argmaxAux : List ℚ → ℕ → ℕ → ℚ → ℕ
  | [], _, best, _ => best
  | x :: xs, i, best, bx =>
      if bx < x then argmaxAux xs (i + 1) i x else argmaxAux xs (i + 1) best bx

/-- First index of the maximum of a list, as `np.argmax` returns it. -/
def argmaxList : List ℚ → ℕ
  | [] => 0
  | x :: xs => argmaxAux xs 1 0 x

/-- Source lines 185–188: the demand sample picked for one time-of-use
column, `consumption_data[np.argmax(col * consumption_data) + index[0]]`
(label arithmetic cancels, leaving the positional read). -/
def demandVal (col consumption : List ℚ) : ℚ :=
  consumption.getD (argmaxList (List.zipWith (· * ·) col consumption)) 0

/-- Source lines 189–196 (and the identical 202–207 fallback): the cost
contribution of one tier column.  With a next tier whose limit the picked
demand strictly exceeds, charge the full tier width
`max((next_limit - limit) * col)`; otherwise `max(max((demand - limit) * col), 0)`. -/
def demandColCost (limit : ℚ) (next_limit : Option ℚ) (col consumption : List ℚ) : ℚ :=
  let demand := demandVal col consumption
  match next_limit with
  | some nl =>
      if nl < demand then listMax (col.map (fun r => (nl - limit) * r))
      else max (listMax (col.map (fun r => (demand - limit) * r))) 0
  | none => max (listMax (col.map (fun r => (demand - limit) * r))) 0

/-- Source lines 177–196: the demand cost over a two-dimensional structured
array — for every tier (with its successor's limit, `None` for the last) and
every column of the tier, add `demandColCost`. -/
def demandCostMat : List (ℚ × List (List ℚ)) → List ℚ → ℚ
  | [], _ => 0
  | [(l, cols)], cons => (cols.map (fun c => demandColCost l none c cons)).sum
  | (l, cols) :: (l2, cols2) :: rest, cons =>
      (cols.map (fun c => demandColCost l (some l2) c cons)).sum +
        demandCostMat ((l2, cols2) :: rest) cons

/-- Source lines 197–207: the `IndexError` fallback of the demand branch for
one-dimensional fields — each tier's whole field plays the single column. -/
def demandCostVec : List (ℚ × List ℚ) → List ℚ → ℚ
  | [], _ => 0
  | [(l, col)], cons => demandColCost l none col cons
  | (l, col) :: (l2, col2) :: rest, cons =>
      demandColCost l (some l2) col cons + demandCostVec ((l2, col2) :: rest) cons

/-- The demand branch of `calculate_cost` dispatched on the field shape (the
source selects the vector fallback through the `IndexError` of `shape[1]`). -/
def demandCostTotal : StructuredCharges → List ℚ → ℚ
  | .mat tiers, cons => demandCostMat tiers cons
  | .vec tiers, cons => demandCostVec tiers cons

/-- Source lines 209–214: the divisor selection of the energy branch; an
invalid utility raises `ValueError` here, before any charge data is read. -/
def divisorFor (utility : String) : Except PyError ℚ :=
  if utility = "electric" then .ok 4
  else if utility = "gas" then .ok 96
  else .error (.valueError ("Invalid utility: " ++ utility))

/-- Sum of `(consumption[t] / divisor) * rates[t]` over `start ≤ t`, the
elementwise tail products of source lines 221–223 and 253–259. -/
def tailProd (divisor : ℚ) (cons rates : List ℚ) (start : ℕ) : ℚ :=
  (List.zipWith (fun c r => c / divisor * r) (cons.drop start) (rates.drop start)).sum

/-- Sum of `(consumption[t] / divisor) * rates[t]` over `a ≤ t < b`, the
full-prior-samples term of source lines 231–242. -/
def sliceProd (divisor : ℚ) (cons rates : List ℚ) (a b : ℕ) : ℚ :=
  (List.zipWith (fun c r => c / divisor * r)
    ((cons.drop a).take (b - a)) ((rates.drop a).take (b - a))).sum

/-- Source lines 228–230: scan the consumption forward from index `i`
(`rest = rates.drop i` bounds the scan by `len(charges[name])`), accumulating
the raw running total `energy`, until `energy / divisor` strictly exceeds the
next tier's limit.  Returns the crossing index with the running total there,
or `none` when the scan runs off the end. -/
def scanCross (divisor nl : ℚ) (cons : List ℚ) :
    List ℚ → ℕ → ℚ → Option (ℕ × ℚ) × ℚ
  | [], _, energy => (none, energy)
  | _ :: rest, i, energy =>
      let e := energy + cons.getD i 0
      if nl < e / divisor then (some (i, e), e)
      else scanCross divisor nl cons rest (i + 1) e

/-- Source lines 216–260: the cumulative-tier energy scan.  The last tier
bills its whole tail; a crossing bills the full prior samples and the partial
remainder of the crossing sample at this tier's rate and moves the cursor past
the crossing sample; the `i == len - 1` check (line 252) both ends a tier that
never crossed and — when the crossing sample happens to be the last sample —
ends the whole tier loop. -/
def energyCostAux (divisor : ℚ) (cons : List ℚ) :
    List (ℚ × List ℚ) → ℕ → ℚ → ℚ
  | [], _, _ => 0
  | [(_, rates)], start_idx, _ => tailProd divisor cons rates start_idx
  | (_, rates) :: (nl, rates2) :: rest, start_idx, energy =>
      match scanCross divisor nl cons (rates.drop start_idx) start_idx energy with
      | (some ie, _) =>
          let c := sliceProd divisor cons rates start_idx ie.1 +
            (nl - (ie.2 - cons.getD ie.1 0) / divisor) * rates.getD ie.1 0
          if ie.1 = rates.length - 1 then c + tailProd divisor cons rates (ie.1 + 1)
          else c + energyCostAux divisor cons ((nl, rates2) :: rest) (ie.1 + 1) ie.2
      | (none, _) => tailProd divisor cons rates start_idx

/-- Source lines 137–264: `calculate_cost(charges, consumption_data,
charge_type, utility)`.  The energy branch on a demand-shaped (two-
dimensional) array is the numpy broadcast failure of multiplying the
one-dimensional consumption series with a matrix. -/
def calculate_cost (charges : StructuredCharges) (cons : List ℚ)
    (charge_type utility : String) : Except PyError ℚ :=
  if charge_type = "demand" then
    .ok (demandCostTotal charges cons)
  else if charge_type = "energy" then
    match divisorFor utility with
    | .error e => .error e
    | .ok divisor =>
      match charges with
      | .vec tiers => .ok (energyCostAux divisor cons tiers 0 0)
      | .mat _ => .error (.valueError "operands could not be broadcast together")
  else
    .error (.valueError ("Invalid charge_type: " ++ charge_type))

/-- Modelled from the spec (§3 TariffRule, §4.1): the declarative
applicability predicate — the rule applies at a timestamp iff the month lies
in `[month_start, month_end]`, the weekday lies in
`[weekday_start, weekday_end]`, and the fractional hour lies in
`[hour_start, hour_end)`.  Stated from the spec's words, to be compared with
the source-derived `applyCharge`. -/
def specRuleApplies (c : TariffRule) (month weekday : ℕ) (fh : ℚ) : Prop :=
  c.month_start ≤ month ∧ month ≤ c.month_end ∧
  c.weekday_start ≤ weekday ∧ weekday ≤ c.weekday_end ∧
  c.hour_start ≤ fh ∧ fh < c.hour_end

/-! ## Helper lemmas -/

lemma foldl_max_init_le (xs : List ℚ) (b : ℚ) : b ≤ xs.foldl max b := by
  induction xs generalizing b with
  | nil => exact le_refl b
  | cons x xs ih => exact le_trans (le_max_left b x) (ih (max b x))

lemma le_foldl_max {a : ℚ} (xs : List ℚ) (b : ℚ) (h : a ∈ xs) : a ≤ xs.foldl max b := by
  induction xs generalizing b with
  | nil => cases h
  | cons x xs ih =>
      rcases List.mem_cons.mp h with rfl | h
      · exact le_trans (le_max_right b a) (foldl_max_init_le xs (max b a))
      · exact ih (max b x) h

lemma foldl_max_le {c : ℚ} (xs : List ℚ) (b : ℚ) (hb : b ≤ c)
    (h : ∀ a ∈ xs, a ≤ c) : xs.foldl max b ≤ c := by
  induction xs generalizing b with
  | nil => exact hb
  | cons x xs ih =>
      exact ih (max b x) (max_le hb (h x (List.mem_cons_self x xs)))
        (fun a ha => h a (List.mem_cons_of_mem x ha))

lemma le_listMax {l : List ℚ} {a : ℚ} (h : a ∈ l) : a ≤ listMax l := by
  cases l with
  | nil => cases h
  | cons x xs =>
      rcases List.mem_cons.mp h with rfl | h
      · exact foldl_max_init_le xs a
      · exact le_foldl_max xs x h

lemma listMax_le {l : List ℚ} {c : ℚ} (hne : l ≠ []) (h : ∀ a ∈ l, a ≤ c) :
    listMax l ≤ c := by
  cases l with
  | nil => exact absurd rfl hne
  | cons x xs =>
      exact foldl_max_le xs x (h x (List.mem_cons_self x xs))
        (fun a ha => h a (List.mem_cons_of_mem x ha))

lemma listMax_eq {l : List ℚ} {a : ℚ} (ha : a ∈ l) (h : ∀ x ∈ l, x ≤ a) :
    listMax l = a :=
  le_antisymm (listMax_le (List.ne_nil_of_mem ha) h) (le_listMax ha)

lemma listMax_replicate_zero (n : ℕ) : listMax (List.replicate n (0 : ℚ)) = 0 := by
  cases n with
  | zero => rfl
  | succ m =>
      rw [List.replicate_succ]
      exact listMax_eq (List.mem_cons_self _ _)
        (by intro x hx; rcases List.mem_cons.mp hx with rfl | hx
            · exact le_refl 0
            · rw [List.eq_of_mem_replicate hx])

lemma zip_div_zero_sum (d : ℚ) (cons : List ℚ) (n : ℕ) :
    (List.zipWith (fun c r => c / d * r) cons (List.replicate n (0 : ℚ))).sum = 0 := by
  induction cons generalizing n with
  | nil => simp
  | cons c cs ih =>
      cases n with
      | zero => simp
      | succ m => simp [List.replicate_succ, ih]

lemma np_unique_nodup (l : List ℚ) : (np_unique l).Nodup :=
  (List.perm_insertionSort _ _).nodup_iff.mpr (List.nodup_dedup l)

lemma np_unique_sorted_lt (l : List ℚ) : (np_unique l).Sorted (· < ·) :=
  (List.sorted_insertionSort _ _).lt_of_le (np_unique_nodup l)

lemma mem_np_unique {l : List ℚ} {q : ℚ} : q ∈ np_unique l ↔ q ∈ l := by
  unfold np_unique
  rw [List.mem_insertionSort]
  exact List.mem_dedup

/-! ## Claims -/

/-- C10: the demand path of `calculate_cost` is independent of the `utility`
argument — any two utility strings (valid or not) give the same result, and
that result is the successful demand cost, so no utility validation happens
on the demand path. -/
theorem demand_cost_utility_independent (ch : StructuredCharges) (cons : List ℚ)
    (u1 u2 : String) :
    calculate_cost ch cons "demand" u1 = calculate_cost ch cons "demand" u2 ∧
    calculate_cost ch cons "demand" u1 = .ok (demandCostTotal ch cons) := by
  constructor <;> simp [calculate_cost]

/-- C4: single-tier energy billing — with exactly one tier (no next tier) the
energy cost is the elementwise sum of `(consumption / divisor) * rate` over
the whole window (divisor 4 for electric, 96 for gas), independent of the
cursor logic. -/
theorem single_tier_energy_cost (L : ℚ) (rates cons : List ℚ) (u : String)
    (h : u = "electric" ∨ u = "gas") :
    calculate_cost (.vec [(L, rates)]) cons "energy" u =
      .ok ((List.zipWith (fun c r => c / (if u = "electric" then 4 else 96) * r)
        cons rates).sum) := by
  rcases h with h | h <;> subst h <;>
    simp [calculate_cost, divisorFor, energyCostAux, tailProd,
      show ("energy" : String) ≠ "demand" from by decide,
      show ("gas" : String) ≠ "electric" from by decide]

/-- Witness for C4 at a concrete input. -/
theorem single_tier_energy_cost_witness :
    calculate_cost (.vec [((0:ℚ), [2,3])]) [4,8] "energy" "electric" = .ok 8 :=
  (single_tier_energy_cost 0 [2,3] [4,8] "electric" (Or.inl rfl)).trans (by norm_num)

/-- C1 (code bug evidence): on the claim's own worked example — three samples
of consumption `[2,2,2]`, divisor 4, tiers at limits `0` and `1` with
per-timestamp rates `1` and `2` — the code bills `$1.00`, not the `$2.00`
(`1.0 × $1 + 0.5 × $2`) that the claimed blended-rate split requires: the
crossing sample is the last sample, so after the tier-1 split the
`i == len - 1` check ends the whole tier loop and the `0.5` units above the
tier boundary are never billed at tier 2's rate. -/
theorem energy_tier_crossing_worked_example :
    calculate_cost (.vec [((0:ℚ), [1,1,1]), ((1:ℚ), [2,2,2])]) [2,2,2]
      "energy" "electric" = .ok 1 ∧ (1 : ℚ) ≠ 2 := by
  constructor
  · norm_num [calculate_cost, divisorFor, energyCostAux, scanCross, sliceProd,
      tailProd, show ("energy" : String) ≠ "demand" from by decide]
  · norm_num

/-- C3: demand tiering tie-break is exclusive on "exceeds" — when the picked
peak of a masked column equals the next tier's limit exactly, the tier
contributes `(peak - this_limit) * rate` (the else-branch form), never the
flat full-width charge, and that per-column contribution is exactly what
`calculate_cost` sums on the demand path. -/
theorem demand_tiebreak_exclusive_on_exceeds (L1 L2 rate : ℚ) (mask : List Bool)
    (col col2 cons : List ℚ) (u : String)
    (hcol : col = mask.map (fun b => if b then rate else 0))
    (hrate : 0 ≤ rate) (hmask : true ∈ mask)
    (hL : L1 ≤ demandVal col cons)
    (hpeak : demandVal col cons = L2) :
    demandColCost L1 (some L2) col cons = (demandVal col cons - L1) * rate ∧
    calculate_cost (.mat [(L1, [col]), (L2, [col2])]) cons "demand" u =
      .ok (demandColCost L1 (some L2) col cons + demandColCost L2 none col2 cons) := by
  constructor
  · have hnotlt : ¬ L2 < demandVal col cons := by rw [hpeak]; exact lt_irrefl L2
    have hv : 0 ≤ (demandVal col cons - L1) * rate :=
      mul_nonneg (by linarith) hrate
    have hmap : col.map (fun r => (demandVal col cons - L1) * r) =
        mask.map (fun b => if b then (demandVal col cons - L1) * rate else 0) := by
      subst hcol
      rw [List.map_map]
      refine List.map_congr_left ?_
      intro b _
      cases b <;> simp
    rw [demandColCost]
    simp only [hnotlt, if_false]
    rw [hmap, listMax_eq (a := (demandVal col cons - L1) * rate)]
    · exact max_eq_left hv
    · exact List.mem_map.mpr ⟨true, hmask, by simp⟩
    · intro x hx
      rcases List.mem_map.mp hx with ⟨b, _, rfl⟩
      cases b <;> simp [hv]
  · simp [calculate_cost, demandCostTotal, demandCostMat]

/-- Witness for C3: two tiers `[0, 10]`, a masked column of rate `1` whose
restricted peak is exactly `10`. -/
theorem demand_tiebreak_witness :
    demandColCost 0 (some 10) [1,0] [10,3] = (demandVal [1,0] [10,3] - 0) * 1 ∧
    calculate_cost (.mat [((0:ℚ), [[1,0]]), ((10:ℚ), [[3,0]])]) [10,3] "demand" "electric" =
      .ok (demandColCost 0 (some 10) [1,0] [10,3] + demandColCost 10 none [3,0] [10,3]) :=
  demand_tiebreak_exclusive_on_exceeds 0 10 1 [true, false] [1,0] [3,0] [10,3] "electric"
    (by norm_num) (by norm_num) (by simp)
    (by norm_num [demandVal, argmaxList, argmaxAux])
    (by norm_num [demandVal, argmaxList, argmaxAux])

/-- C6: the applicability mask — the code's per-timestamp test agrees with
the spec's five inclusive/exclusive range tests on the fractional hour
`hour + (i % 4)/4`, and at cadence resolution every real sample's fractional
hour stays strictly below 24, so a rule with `hour_end = 24` never wrongly
excludes a sample. -/
theorem applicability_mask_spec :
    (∀ (c : TariffRule) (t : Timestamp) (i : ℕ),
       applyCharge c t i = true ↔ specRuleApplies c t.month t.weekday (hourFrac t i)) ∧
    (∀ (t : Timestamp) (i : ℕ), t.hour < 24 → hourFrac t i < 24) ∧
    (∀ (c : TariffRule) (t : Timestamp) (i : ℕ),
       c.hour_end = 24 → t.hour < 24 → hourFrac t i < c.hour_end) := by
  have hfrac : ∀ (t : Timestamp) (i : ℕ), t.hour < 24 → hourFrac t i < 24 := by
    intro t i h
    have h4 : (i % 4 : ℕ) < 4 := Nat.mod_lt _ (by norm_num)
    have h1 : (t.hour : ℚ) ≤ 23 := by exact_mod_cast Nat.lt_succ_iff.mp h
    have h2 : ((i % 4 : ℕ) : ℚ) ≤ 3 := by exact_mod_cast Nat.lt_succ_iff.mp h4
    unfold hourFrac
    linarith
  refine ⟨?_, hfrac, ?_⟩
  · intro c t i
    simp [applyCharge, specRuleApplies, and_assoc]
  · intro c t i he h
    rw [he]
    exact hfrac t i h

/-- An example tariff rule used by concrete witnesses. -/
def exampleRule : TariffRule :=
  { utility := "electric", type := "demand", period := "peak", limit := 0,
    month_start := 1, month_end := 2, hour_start := 0, hour_end := 24,
    weekday_start := 0, weekday_end := 6, charge := 2 }

/-- Witness for C6 at a concrete rule and timestamp. -/
theorem applicability_mask_spec_witness :
    (applyCharge exampleRule ⟨1, 2, 23⟩ 5 = true ↔
      specRuleApplies exampleRule 1 2 (hourFrac ⟨1, 2, 23⟩ 5)) ∧
    hourFrac ⟨1, 2, 23⟩ 5 < 24 :=
  ⟨applicability_mask_spec.1 exampleRule ⟨1, 2, 23⟩ 5,
   applicability_mask_spec.2.1 ⟨1, 2, 23⟩ 5 (by norm_num)⟩

/-- C5: empty-filter fallback — when filtering leaves no rules, resolve
returns a single all-zero column keyed by limit `0` (the `"0.0"` field name)
rather than an error, for both demand and energy, and `calculate_cost` on
that fallback result is `0` (for energy, with a valid divisor utility). -/
theorem empty_filter_zero_fallback :
    (∀ (rd : List TariffRule) (u : String) (ts : List Timestamp),
       filteredCharges rd "demand" u = [] →
       get_charge_array (some ts) rd "demand" u =
         .ok (.demand [(0, [List.replicate (96 * (ts.length / 96)) 0])]) ∧
       ∀ (cons : List ℚ) (uu : String),
         calculate_cost (.mat [(0, [List.replicate (96 * (ts.length / 96)) 0])])
           cons "demand" uu = .ok 0) ∧
    (∀ (rd : List TariffRule) (u : String) (ts : List Timestamp),
       filteredCharges rd "energy" u = [] →
       get_charge_array (some ts) rd "energy" u =
         .ok (.energy [(0, List.replicate (96 * (ts.length / 96)) 0)]) ∧
       ∀ (cons : List ℚ) (uu : String), (uu = "electric" ∨ uu = "gas") →
         calculate_cost (.vec [(0, List.replicate (96 * (ts.length / 96)) 0)])
           cons "energy" uu = .ok 0) := by
  constructor
  · intro rd u ts hd
    constructor
    · simp [get_charge_array, hd, show ("demand" : String) ≠ "customer" from by decide]
    · intro cons uu
      have hz : demandColCost 0 none (List.replicate (96 * (ts.length / 96)) 0) cons = 0 := by
        rw [demandColCost]
        simp [List.map_replicate, listMax_replicate_zero]
      simp [calculate_cost, demandCostTotal, demandCostMat, hz]
  · intro rd u ts he
    constructor
    · simp [get_charge_array, he,
        show ("energy" : String) ≠ "customer" from by decide,
        show ("energy" : String) ≠ "demand" from by decide]
    · intro cons uu huu
      rcases huu with huu | huu <;> subst huu <;>
        simp [calculate_cost, divisorFor, energyCostAux, tailProd, zip_div_zero_sum,
          show ("energy" : String) ≠ "demand" from by decide,
          show ("gas" : String) ≠ "electric" from by decide]

/-- A one-day (96-sample) window of January timestamps, used by concrete
witnesses; the fractional-hour increments come from the row positions. -/
def ts96 : List Timestamp := List.replicate 96 ⟨1, 0, 0⟩

/-- Witness for C5: an empty tariff sheet with an unmatched utility, on a
one-day window. -/
theorem empty_filter_zero_fallback_witness :
    get_charge_array (some ts96) [] "demand" "water" =
      .ok (.demand [(0, [List.replicate 96 0])]) ∧
    calculate_cost (.mat [(0, [List.replicate 96 0])]) [5,5] "demand" "water" = .ok 0 ∧
    get_charge_array (some ts96) [] "energy" "water" =
      .ok (.energy [(0, List.replicate 96 0)]) ∧
    calculate_cost (.vec [(0, List.replicate 96 0)]) [5,5] "energy" "gas" = .ok 0 := by
  have h1 := empty_filter_zero_fallback.1 [] "water" ts96 (by rfl)
  have h2 := empty_filter_zero_fallback.2 [] "water" ts96 (by rfl)
  have hlen : 96 * (ts96.length / 96) = 96 := by simp [ts96]
  refine ⟨?_, ?_, ?_, ?_⟩
  · have := h1.1; rwa [hlen] at this
  · have := h1.2 [5,5] "water"; rwa [hlen] at this
  · have := h2.1; rwa [hlen] at this
  · have := h2.2 [5,5] "gas" (Or.inr rfl); rwa [hlen] at this

/-- C9: the customer path of resolve never reads the timestamp column — with
the `DateTime` column missing it still returns the filtered flat rates; every
non-customer charge type (including invalid ones, whose usage error comes
only later) hits the missing-column `KeyError` first; and with the column
present no `KeyError` is ever raised. -/
theorem customer_path_ignores_datetime :
    (∀ (rd : List TariffRule) (u : String),
       get_charge_array none rd "customer" u =
         .ok (.customer ((filteredCharges rd "customer" u).map (fun p => p.2.charge)))) ∧
    (∀ (rd : List TariffRule) (ct u : String), ct ≠ "customer" →
       get_charge_array none rd ct u = .error (.keyError "DateTime")) ∧
    (∀ (rd : List TariffRule) (ct u : String) (ts : List Timestamp) (s : String),
       get_charge_array (some ts) rd ct u ≠ .error (.keyError s)) := by
  refine ⟨?_, ?_, ?_⟩
  · intro rd u
    simp [get_charge_array]
  · intro rd ct u h
    simp [get_charge_array, h]
  · intro rd ct u ts s
    by_cases h1 : ct = "customer"
    · simp [get_charge_array, h1]
    · by_cases h2 : ct = "demand"
      · simp only [get_charge_array, h1, h2]
        simp only [if_false, show ("demand" : String) = "customer" ↔ False from by simp]
        by_cases hh : filteredCharges rd "demand" u = [] <;> simp [hh]
      · by_cases h4 : ct = "energy"
        · simp only [get_charge_array, h1, h2, h4]
          simp only [if_false, show ("energy" : String) = "customer" ↔ False from by simp,
            show ("energy" : String) = "demand" ↔ False from by simp]
          by_cases hh : filteredCharges rd "energy" u = [] <;> simp [hh]
        · simp [get_charge_array, h1, h2, h4]

/-- Witness for C9 at concrete inputs. -/
theorem customer_path_ignores_datetime_witness :
    get_charge_array none [exampleRule] "customer" "electric" =
      .ok (.customer ((filteredCharges [exampleRule] "customer" "electric").map
        (fun p => p.2.charge))) ∧
    get_charge_array none [exampleRule] "demand" "electric" =
      .error (.keyError "DateTime") ∧
    get_charge_array (some []) [] "demand" "electric" ≠
      .error (.keyError "DateTime") :=
  ⟨customer_path_ignores_datetime.1 [exampleRule] "electric",
   customer_path_ignores_datetime.2.1 [exampleRule] "demand" "electric" (by decide),
   customer_path_ignores_datetime.2.2 [] "demand" "electric" [] "DateTime"⟩

/-- C8 (amended): with the consumption timestamp column present, resolve
raises `ValueError` exactly when `charge_type` is outside
`{customer, demand, energy}` (without the column, a `KeyError` precedes the
usage error); `calculate_cost` never errors on the demand path, succeeds on
energy-shaped arrays for utilities `electric`/`gas`, raises
`ValueError` for any other utility on the energy path, and raises
`ValueError` for any `charge_type` outside `{demand, energy}` — immediately
and unmodified. -/
theorem usage_error_conditions :
    (∀ (rd : List TariffRule) (ct u : String) (ts : List Timestamp) (m : String),
       get_charge_array (some ts) rd ct u = .error (.valueError m) →
       ¬(ct = "customer" ∨ ct = "demand" ∨ ct = "energy")) ∧
    (∀ (rd : List TariffRule) (ct u : String) (ts : List Timestamp),
       ¬(ct = "customer" ∨ ct = "demand" ∨ ct = "energy") →
       get_charge_array (some ts) rd ct u =
         .error (.valueError ("Invalid charge_type: " ++ ct))) ∧
    (∀ (ch : StructuredCharges) (cons : List ℚ) (u : String),
       calculate_cost ch cons "demand" u = .ok (demandCostTotal ch cons)) ∧
    (∀ (tiers : List (ℚ × List ℚ)) (cons : List ℚ),
       calculate_cost (.vec tiers) cons "energy" "electric" =
         .ok (energyCostAux 4 cons tiers 0 0) ∧
       calculate_cost (.vec tiers) cons "energy" "gas" =
         .ok (energyCostAux 96 cons tiers 0 0)) ∧
    (∀ (ch : StructuredCharges) (cons : List ℚ) (u : String),
       ¬(u = "electric" ∨ u = "gas") →
       calculate_cost ch cons "energy" u =
         .error (.valueError ("Invalid utility: " ++ u))) ∧
    (∀ (ch : StructuredCharges) (cons : List ℚ) (ct u : String),
       ¬(ct = "demand" ∨ ct = "energy") →
       calculate_cost ch cons ct u =
         .error (.valueError ("Invalid charge_type: " ++ ct))) := by
  refine ⟨?_, ?_, ?_, ?_, ?_, ?_⟩
  · intro rd ct u ts m h hor
    rcases hor with h1 | h1 | h1 <;> subst h1
    · simp [get_charge_array] at h
    · simp only [get_charge_array,
        show ("demand" : String) = "customer" ↔ False from by simp, if_false] at h
      revert h
      by_cases hh : filteredCharges rd "demand" u = [] <;> simp [hh]
    · simp only [get_charge_array,
        show ("energy" : String) = "customer" ↔ False from by simp,
        show ("energy" : String) = "demand" ↔ False from by simp, if_false] at h
      revert h
      by_cases hh : filteredCharges rd "energy" u = [] <;> simp [hh]
  · intro rd ct u ts h
    push_neg at h
    simp [get_charge_array, h.1, h.2.1, h.2.2]
  · intro ch cons u
    simp [calculate_cost]
  · intro tiers cons
    constructor <;>
      simp [calculate_cost, divisorFor,
        show ("energy" : String) ≠ "demand" from by decide,
        show ("gas" : String) ≠ "electric" from by decide]
  · intro ch cons u h
    push_neg at h
    simp [calculate_cost, divisorFor, h.1, h.2,
      show ("energy" : String) ≠ "demand" from by decide]
  · intro ch cons ct u h
    push_neg at h
    simp [calculate_cost, h.1, h.2]

/-- C8 counterexample: with the `DateTime` column missing and the invalid
charge type `"bogus"`, resolve raises the `KeyError` — not the `ValueError`
the claim's "exactly when" requires. -/
theorem usage_error_counterexample :
    get_charge_array none [] "bogus" "electric" = .error (.keyError "DateTime") ∧
    ("bogus" ≠ "customer" ∧ "bogus" ≠ "demand" ∧ "bogus" ≠ "energy") := by
  constructor
  · simp [get_charge_array]
  · refine ⟨by decide, by decide, by decide⟩

/-- Witness for C8 at concrete inputs, one per conjunct. -/
theorem usage_error_conditions_witness :
    get_charge_array (some []) [] "bogus" "electric" =
      .error (.valueError ("Invalid charge_type: " ++ "bogus")) ∧
    ¬("bogus" = "customer" ∨ "bogus" = "demand" ∨ "bogus" = "energy") ∧
    calculate_cost (.mat [(0, [[1]])]) [2] "demand" "water" =
      .ok (demandCostTotal (.mat [(0, [[1]])]) [2]) ∧
    calculate_cost (.vec [(0, [1])]) [2] "energy" "electric" =
      .ok (energyCostAux 4 [2] [(0, [1])] 0 0) ∧
    calculate_cost (.vec [(0, [1])]) [2] "energy" "oil" =
      .error (.valueError ("Invalid utility: " ++ "oil")) ∧
    calculate_cost (.vec [(0, [1])]) [2] "customer" "electric" =
      .error (.valueError ("Invalid charge_type: " ++ "customer")) := by
  have hne : ¬("bogus" = "customer" ∨ "bogus" = "demand" ∨ "bogus" = "energy") := by
    push_neg
    exact ⟨by decide, by decide, by decide⟩
  refine ⟨usage_error_conditions.2.1 [] "bogus" "electric" [] hne, hne,
    usage_error_conditions.2.2.1 (.mat [(0, [[1]])]) [2] "water",
    (usage_error_conditions.2.2.2.1 [(0, [1])] [2]).1,
    usage_error_conditions.2.2.2.2.1 (.vec [(0, [1])]) [2] "oil"
      (by push_neg; exact ⟨by decide, by decide⟩),
    usage_error_conditions.2.2.2.2.2 (.vec [(0, [1])]) [2] "customer" "electric"
      (by push_neg; exact ⟨by decide, by decide⟩)⟩

lemma map_fst_map_pair {β : Type} (l : List ℚ) (g : ℚ → β) :
    (l.map (fun L => (L, g L))).map Prod.fst = l := by
  rw [List.map_map]
  simp [Function.comp_def]

/-- C7: resolved-table key invariant — for every non-empty filtered demand or
energy rule set, the tier keys of the returned table are strictly ascending,
duplicate-free, and are exactly the `tier_limit` values occurring among the
filtered rules. -/
theorem resolved_keys_sorted_distinct :
    (∀ (rd : List TariffRule) (u : String) (ts : List Timestamp)
       (tiers : List (ℚ × List (List ℚ))),
       filteredCharges rd "demand" u ≠ [] →
       get_charge_array (some ts) rd "demand" u = .ok (.demand tiers) →
       (tiers.map Prod.fst).Sorted (· < ·) ∧ (tiers.map Prod.fst).Nodup ∧
       (∀ q, q ∈ tiers.map Prod.fst ↔
          q ∈ (filteredCharges rd "demand" u).map (fun p => p.2.limit))) ∧
    (∀ (rd : List TariffRule) (u : String) (ts : List Timestamp)
       (tiers : List (ℚ × List ℚ)),
       filteredCharges rd "energy" u ≠ [] →
       get_charge_array (some ts) rd "energy" u = .ok (.energy tiers) →
       (tiers.map Prod.fst).Sorted (· < ·) ∧ (tiers.map Prod.fst).Nodup ∧
       (∀ q, q ∈ tiers.map Prod.fst ↔
          q ∈ (filteredCharges rd "energy" u).map (fun p => p.2.limit))) := by
  constructor
  · intro rd u ts tiers hne h
    simp only [get_charge_array,
      show ("demand" : String) = "customer" ↔ False from by simp, if_false,
      List.length_eq_zero, hne, if_true, Except.ok.injEq, ChargeArray.demand.injEq] at h
    have hkeys : tiers.map Prod.fst =
        np_unique ((filteredCharges rd "demand" u).map (fun p => p.2.limit)) := by
      rw [← h, map_fst_map_pair]
    rw [hkeys]
    exact ⟨np_unique_sorted_lt _, np_unique_nodup _, fun q => mem_np_unique⟩
  · intro rd u ts tiers hne h
    simp only [get_charge_array,
      show ("energy" : String) = "customer" ↔ False from by simp,
      show ("energy" : String) = "demand" ↔ False from by simp, if_false,
      List.length_eq_zero, hne, if_true, Except.ok.injEq, ChargeArray.energy.injEq] at h
    have hkeys : tiers.map Prod.fst =
        np_unique ((filteredCharges rd "energy" u).map (fun p => p.2.limit)) := by
      rw [← h, map_fst_map_pair]
    rw [hkeys]
    exact ⟨np_unique_sorted_lt _, np_unique_nodup _, fun q => mem_np_unique⟩

/-- Two example demand rules with out-of-order tier limits, for the C7
witness. -/
def exRuleHi : TariffRule := { exampleRule with limit := 10 }

def exRuleLo : TariffRule := { exampleRule with limit := 0, period := "offpeak" }

/-- Concrete resolve run for the C7 witness (empty window, two tiers given in
descending limit order). -/
theorem resolved_keys_eval_example : get_charge_array (some []) [exRuleHi, exRuleLo] "demand" "electric" =
    .ok (.demand [(0, [[]]), (10, [[]])]) := by
  norm_num [get_charge_array, filteredCharges, np_unique, buildDemandData,
    minIndex, applyMask, applyCharge, hourFrac, exRuleHi, exRuleLo, exampleRule,
    List.dedup_cons_of_mem, List.dedup_cons_of_not_mem,
    List.insertionSort, List.orderedInsert, List.enum, List.enumFrom,
    List.replicate, List.filter, List.find?, List.set,
    show ("demand" : String) ≠ "customer" from by decide]

/-- Witness for C7: the keys come out as `[0, 10]`, sorted and distinct. -/
theorem resolved_keys_sorted_distinct_witness :
    (([((0:ℚ), ([[]] : List (List ℚ))), (10, [[]])].map Prod.fst).Sorted (· < ·)) ∧
    (([((0:ℚ), ([[]] : List (List ℚ))), (10, [[]])].map Prod.fst).Nodup) ∧
    (∀ q, q ∈ [((0:ℚ), ([[]] : List (List ℚ))), (10, [[]])].map Prod.fst ↔
       q ∈ (filteredCharges [exRuleHi, exRuleLo] "demand" "electric").map
         (fun p => p.2.limit)) :=
  resolved_keys_sorted_distinct.1 [exRuleHi, exRuleLo] "electric" [] [(0, [[]]), (10, [[]])]
    (by
      have hfc : filteredCharges [exRuleHi, exRuleLo] "demand" "electric" =
          [(0, exRuleHi), (1, exRuleLo)] := by
        norm_num [filteredCharges, List.enum, List.enumFrom, List.filter,
          exRuleHi, exRuleLo, exampleRule]
      rw [hfc]
      exact List.cons_ne_nil _ _)
    resolved_keys_eval_example

/-- C2 (amended): for a tariff sheet of two demand rules sharing one period
label and one tier, resolve keeps one column per rule — the tier block has
TWO columns: the first rule's column holds the logical OR of both rules'
masks (scaled by the later rule's rate), and the second rule's own column is
left all-zero.  The merged mask lands in exactly one (the only nonzero)
column, but the block is not a single column. -/
theorem demand_period_merge_single_nonzero_column (r1 r2 : TariffRule) (u : String) (ts : List Timestamp)
    (ht1 : r1.type = "demand") (ht2 : r2.type = "demand")
    (hu1 : r1.utility = u) (hu2 : r2.utility = u)
    (hp : r2.period = r1.period) (hl : r2.limit = r1.limit)
    (_hd : r1.month_end < r2.month_start) :
    get_charge_array (some ts) [r1, r2] "demand" u =
      .ok (.demand [(r1.limit,
        [(List.zipWith (fun a b => a || b) (applyMask r2 ts) (applyMask r1 ts)).map
           (fun b => if b then r2.charge else 0),
         List.replicate (96 * (ts.length / 96)) 0])]) := by
  have hfc : filteredCharges [r1, r2] "demand" u = [(0, r1), (1, r2)] := by
    simp [filteredCharges, List.enum, List.enumFrom, ht1, ht2, hu1, hu2]
  have hnp : np_unique [r1.limit, r2.limit] = [r1.limit] := by
    simp [np_unique, hl, List.dedup_cons_of_mem, List.insertionSort, List.orderedInsert]
  simp only [get_charge_array, hfc,
    show ("demand" : String) = "customer" ↔ False from by simp, if_false, if_true,
    List.length_eq_zero, show ¬([((0:ℕ), r1), (1, r2)] = []) from by simp]
  simp only [List.map_cons, List.map_nil, hnp]
  simp only [List.filter, hl, decide_True, List.map]
  simp [buildDemandData, minIndex, List.find?, hp, List.replicate_succ,
    List.set]

/-- The second clause of the same billing period: identical to `exampleRule`
but covering the disjoint month range July–August. -/
def exampleRuleSummer : TariffRule :=
  { exampleRule with month_start := 7, month_end := 8 }

set_option maxRecDepth 4000 in
/-- C2 counterexample: two same-period demand rules with disjoint month
ranges resolve to a tier block of TWO columns (the merged one and an all-zero
one), not the single column the claim asserts. -/
theorem demand_period_merge_counterexample :
    get_charge_array (some ts96) [exampleRule, exampleRuleSummer] "demand" "electric" =
      .ok (.demand [(0, [List.replicate 96 2, List.replicate 96 0])]) ∧
    [List.replicate 96 (2:ℚ), List.replicate 96 (0:ℚ)].length ≠ 1 := by
  constructor
  · norm_num [get_charge_array, filteredCharges, np_unique, buildDemandData,
      minIndex, applyMask, applyCharge, hourFrac, ts96, exampleRule, exampleRuleSummer,
      List.dedup_cons_of_mem, List.dedup_cons_of_not_mem,
      List.insertionSort, List.orderedInsert, List.enum, List.enumFrom,
      List.replicate, List.filter, List.find?, List.set,
      show ("demand" : String) ≠ "customer" from by decide]
  · simp

/-- Witness for C2's amended statement at the concrete two-rule sheet. -/
theorem demand_period_merge_witness :
    get_charge_array (some ts96) [exampleRule, exampleRuleSummer] "demand" "electric" =
      .ok (.demand [(exampleRule.limit,
        [(List.zipWith (fun a b => a || b) (applyMask exampleRuleSummer ts96)
            (applyMask exampleRule ts96)).map
           (fun b => if b then exampleRuleSummer.charge else 0),
         List.replicate (96 * (ts96.length / 96)) 0])]) :=
  demand_period_merge_single_nonzero_column exampleRule exampleRuleSummer "electric" ts96 rfl rfl rfl rfl rfl rfl
    (by norm_num [exampleRule, exampleRuleSummer])
